import Mathlib

/-!
The command actions of `internal/appcli/command.go` (magic-home).

A shallow embedding of the four command actions (`color`, `state`, `status`,
`discover`).  The device library (`magichome`), the argument helper
(`util.ParseStringToUint8`) and the Go standard library are outside the file
under study; every call into them is kept as a field of `Lib`, threaded
through an explicit world state, and every call a command makes is recorded,
with its result, in the trace of the run.
-/

namespace magichome

/-- Go `error` values, identified by their message. -/
abbrev Err := String

/-- A `net.IP`: the byte slice of an address. -/
abbrev IP := List Nat

/-- Handle of a `*magichome.Controller` returned by `magichome.New`. -/
abbrev Controller := Nat

/-- Modelled from the spec: the declaration of `magichome.Color` is absent; four
channels R, G, B, W, as the struct literal in `Command.Color.Action` names
them.  Channels are `uint8` values, held as naturals. -/
structure Color where
  R : Nat
  G : Nat
  B : Nat
  W : Nat
  deriving DecidableEq, Repr

/-- Modelled from the spec: the declaration of `magichome.State` is absent; the
constants `On` and `Off` are the two the source names.  `other` stands for
any further value the underlying type may admit, so that the `else` branch of
the status printer is not assumed to mean `Off`. -/
inductive State where
  | On
  | Off
  | other (raw : Nat)
  deriving DecidableEq, Repr

/-- Modelled from the spec: the declaration of `magichome.DeviceState` is absent;
the two fields read by `Command.Status.Action`. -/
structure DeviceState where
  State : State
  Color : Color
  deriving DecidableEq, Repr

/-- Modelled from the spec: the declaration of the discovered device record is
absent; the three fields read by `Command.Discover.Action`. -/
structure Device where
  IP : IP
  ID : String
  Model : String
  deriving DecidableEq, Repr

/-- The literal `magichome.DiscoverOptions{BroadcastAddr: ..., Timeout: ...}`. -/
structure DiscoverOptions where
  BroadcastAddr : String
  Timeout : Nat
  deriving DecidableEq, Repr

end magichome

namespace appcli

open magichome

/-- Result of a call returning `(T, error)`. -/
inductive Res (α : Type) where
  | ok (v : α)
  | err (e : Err)
  deriving DecidableEq, Repr

/-- What a run of an action does that is visible outside it: writes to standard
output, the help-and-exit call, and every call into the device library
together with what the call returned. -/
inductive Event where
  | print (s : String)
  | spinner
  | showCommandHelpAndExit (command : String) (code : Int)
  | new (ip : IP) (port : Nat) (res : Res Controller)
  | setColor (c : Controller) (color : Color) (res : Option Err)
  | setState (c : Controller) (s : State) (res : Option Err)
  | getDeviceState (c : Controller) (res : Res DeviceState)
  | close (c : Controller) (res : Option Err)
  | discover (opts : DiscoverOptions) (res : Res (List Device))
  deriving DecidableEq, Repr

/-- How an action ends: it returns an `error` (possibly nil), or the process is
ended by `cli.ShowCommandHelpAndExit`. -/
inductive Outcome where
  | returned (err : Option Err)
  | exited (code : Int)
  deriving DecidableEq, Repr

/-- The `*cli.Context` as the actions read it: positional arguments and the
three flag accessors `c.Int`, `c.Bool`, `c.String`. -/
structure Context where
  args : List String
  /-- The accessor `c.Int(name)`. -/
  intFlag : String → Int
  /-- The accessor `c.Bool(name)`. -/
  boolFlag : String → Bool
  /-- The accessor `c.String(name)`. -/
  stringFlag : String → String

/-- The function `c.Args().Get(n)`: the n-th positional argument, or the empty
string when there is none. -/
def Context.Get (c : Context) (n : Nat) : String :=
  c.args.getD n ""

/-- Everything the actions call that is not in `command.go`.  Pure helpers are
functions; library calls take and return the world state `W`.  A library call
that returns a nil error is taken to return a usable value (a non-nil
controller, snapshot or device list). -/
structure Lib (W : Type) where
  /-- The function `net.ParseIP`; `none` is the nil result. -/
  ParseIP : String → Option IP
  /-- The function `unicode.ToLower` on runes outside ASCII. -/
  unicodeLower : Char → Char
  /-- The helper `util.ParseStringToUint8`. -/
  ParseStringToUint8 : String → Nat
  /-- The `%s` rendering of a device record address. -/
  IPString : IP → String
  /-- The function `json.Marshal` on a device snapshot. -/
  Marshal : DeviceState → Res String
  /-- The call `magichome.New(ip, port)`. -/
  New : W → IP → Nat → Res Controller × W
  /-- The call `controller.SetColor(color)`; `none` is the nil error. -/
  SetColor : W → Controller → Color → Option Err × W
  /-- The call `controller.SetState(state)`. -/
  SetState : W → Controller → State → Option Err × W
  /-- The call `controller.GetDeviceState()`. -/
  GetDeviceState : W → Controller → Res DeviceState × W
  /-- The call `controller.Close()`. -/
  Close : W → Controller → Option Err × W
  /-- The call `magichome.Discover(options)`. -/
  Discover : W → DiscoverOptions → Res (List Device) × W

/-- A finished run: the events in order, how the action ended, and the world
state it left. -/
structure Run (W : Type) where
  trace : List Event
  outcome : Outcome
  world : W

/-- The conversion `uint8(x)` of a Go `int`: the low eight bits. -/
def toUint8 (x : Int) : Nat := (x % 256).toNat

/-- The conversion `uint16(x)` of a Go `int`: the low sixteen bits. -/
def toUint16 (x : Int) : Nat := (x % 65536).toNat

/-- One rune of `strings.ToLower`: ASCII letters by the fixed offset, other
runes through the Unicode table. -/
def toLowerRune (tbl : Char → Char) (c : Char) : Char :=
  if c.toNat < 128 then c.toLower else tbl c

/-- The function `strings.ToLower`, rune by rune. -/
def ToLower (tbl : Char → Char) (s : String) : String :=
  String.mk (s.data.map (toLowerRune tbl))

/-- The call `fmt.Println(a, b)`: operands separated by a space, then a newline. -/
def Println2 (a b : String) : Event :=
  .print (a ++ " " ++ b ++ "\n")

/-- The call `fmt.Println(a)`. -/
def Println1 (a : String) : Event :=
  .print (a ++ "\n")

/-- The call `fmt.Println()`. -/
def Println0 : Event :=
  .print "\n"

/-- The verb `%d` on an unsigned value. -/
def fmtD (n : Nat) : String := Nat.repr n

/-- The action of the `color` command. -/
def Command.Color.Action {W : Type} (lib : Lib W) (c : Context) (w : W) : Run W :=
  let ipArg := c.Get 0
  match lib.ParseIP ipArg with
  | some ip =>
    match lib.New w ip (toUint16 (c.intFlag "port")) with
    | (.err e, w1) =>
      { trace := [.new ip (toUint16 (c.intFlag "port")) (.err e)],
        outcome := .returned none, world := w1 }
    | (.ok controller, w1) =>
      let color : Color :=
        { R := lib.ParseStringToUint8 (c.Get 1),
          G := lib.ParseStringToUint8 (c.Get 2),
          B := lib.ParseStringToUint8 (c.Get 3),
          W := lib.ParseStringToUint8 (c.Get 4) }
      let t1 : List Event := [.new ip (toUint16 (c.intFlag "port")) (.ok controller)]
      match lib.SetColor w1 controller color with
      | (some e, w2) =>
        { trace := t1 ++ [.setColor controller color (some e)],
          outcome := .returned (some e), world := w2 }
      | (none, w2) =>
        let t2 := t1 ++ [.setColor controller color none]
        match lib.Close w2 controller with
        | (some e, w3) =>
          { trace := t2 ++ [.close controller (some e)],
            outcome := .returned (some e), world := w3 }
        | (none, w3) =>
          { trace := t2 ++ [.close controller none],
            outcome := .returned none, world := w3 }
  | none =>
    { trace := [Println2 "Unvalid IP: " ipArg, .showCommandHelpAndExit "color" 1],
      outcome := .exited 1, world := w }

/-- The action of the `state` command. -/
def Command.State.Action {W : Type} (lib : Lib W) (c : Context) (w : W) : Run W :=
  let ipArg := c.Get 0
  match lib.ParseIP ipArg with
  | some ip =>
    let stateArg := ToLower lib.unicodeLower (c.Get 1)
    let status : Option State :=
      if stateArg = "on" then some State.On
      else if stateArg = "off" then some State.Off
      else none
    match status with
    | none =>
      { trace := [Println2 "Invalid state: " stateArg, .showCommandHelpAndExit "state" 1],
        outcome := .exited 1, world := w }
    | some status =>
      match lib.New w ip (toUint16 (c.intFlag "port")) with
      | (.err e, w1) =>
        { trace := [.new ip (toUint16 (c.intFlag "port")) (.err e)],
          outcome := .returned (some e), world := w1 }
      | (.ok controller, w1) =>
        let t1 : List Event := [.new ip (toUint16 (c.intFlag "port")) (.ok controller)]
        match lib.SetState w1 controller status with
        | (some e, w2) =>
          { trace := t1 ++ [.setState controller status (some e)],
            outcome := .returned (some e), world := w2 }
        | (none, w2) =>
          let t2 := t1 ++ [.setState controller status none]
          match lib.Close w2 controller with
          | (some e, w3) =>
            { trace := t2 ++ [.close controller (some e)],
              outcome := .returned (some e), world := w3 }
          | (none, w3) =>
            { trace := t2 ++ [.close controller none],
              outcome := .returned none, world := w3 }
  | none =>
    { trace := [Println2 "Invalid IP: " ipArg, .showCommandHelpAndExit "state" 1],
      outcome := .exited 1, world := w }

/-- The human-readable lines of the `status` command, in the order written. -/
def statusLines (deviceState : DeviceState) : List Event :=
  [ .print "Device is: ",
    (if deviceState.State = State.On then Println1 "On" else Println1 "Off"),
    .print ("Color: \tR: " ++ fmtD deviceState.Color.R ++ " \n\tG: " ++ fmtD deviceState.Color.G
      ++ " \n\tB: " ++ fmtD deviceState.Color.B ++ " \n\tW: " ++ fmtD deviceState.Color.W ++ "\n") ]

/-- The end of the `status` action, where its two printing branches meet: call
`Close`, return its error if it has one, else nil.  `t` is the trace so far. -/
def closeAndReturn {W : Type} (lib : Lib W) (controller : Controller) (t : List Event) (w : W) :
    Run W :=
  match lib.Close w controller with
  | (some e, w3) =>
    { trace := t ++ [.close controller (some e)], outcome := .returned (some e), world := w3 }
  | (none, w3) =>
    { trace := t ++ [.close controller none], outcome := .returned none, world := w3 }

/-- The action of the `status` command. -/
def Command.Status.Action {W : Type} (lib : Lib W) (c : Context) (w : W) : Run W :=
  let ipArg := c.Get 0
  match lib.ParseIP ipArg with
  | some ip =>
    match lib.New w ip (toUint16 (c.intFlag "port")) with
    | (.err e, w1) =>
      { trace := [.new ip (toUint16 (c.intFlag "port")) (.err e)],
        outcome := .returned (some e), world := w1 }
    | (.ok controller, w1) =>
      let t1 : List Event := [.new ip (toUint16 (c.intFlag "port")) (.ok controller)]
      match lib.GetDeviceState w1 controller with
      | (.err e, w2) =>
        { trace := t1 ++ [.getDeviceState controller (.err e)],
          outcome := .returned (some e), world := w2 }
      | (.ok deviceState, w2) =>
        let t2 := t1 ++ [.getDeviceState controller (.ok deviceState)]
        if c.boolFlag "json" then
          match lib.Marshal deviceState with
          | .err e => { trace := t2, outcome := .returned (some e), world := w2 }
          | .ok res => closeAndReturn lib controller (t2 ++ [Println1 res]) w2
        else
          closeAndReturn lib controller (t2 ++ statusLines deviceState) w2
  | none =>
    { trace := [Println2 "Invalid IP: " ipArg, .showCommandHelpAndExit "status" 1],
      outcome := .exited 1, world := w }

/-- Interleaving of the background goroutine of `discover` with the events of
the main goroutine: `sched k` writes of `.` land before the k-th event that
follows, and a last batch before the action ends. -/
def weave (sched : Nat → Nat) : Nat → List Event → List Event
  | k, [] => List.replicate (sched k) Event.spinner
  | k, ev :: rest => List.replicate (sched k) Event.spinner ++ ev :: weave sched (k + 1) rest

/-- One row of the device table: `fmt.Printf("%s\t| %s\t| %s\n", ...)`. -/
def deviceRow {W : Type} (lib : Lib W) (device : Device) : Event :=
  .print (lib.IPString device.IP ++ "\t| " ++ device.ID ++ "\t| " ++ device.Model ++ "\n")

/-- The lines written before the device rows. -/
def tableHeader : List Event :=
  [ Println0,
    Println1 "Discovered the following devices:",
    Println0,
    Println1 "Address    \t| ID         \t| Model",
    Println1 "---------------------------------------" ]

/-- The events of the main goroutine of `discover` after the spinner is started. -/
def discoverMain {W : Type} (lib : Lib W) (c : Context) (w : W) : Run W :=
  let opts : DiscoverOptions :=
    { BroadcastAddr := c.stringFlag "broadcastaddr", Timeout := toUint8 (c.intFlag "timeout") }
  match lib.Discover w opts with
  | (.err e, w1) =>
    { trace := [.discover opts (.err e)], outcome := .returned (some e), world := w1 }
  | (.ok devices, w1) =>
    let t1 : List Event := [.discover opts (.ok devices)]
    if devices.length ≥ 1 then
      { trace := t1 ++ tableHeader ++ devices.map (deviceRow lib),
        outcome := .returned none, world := w1 }
    else
      { trace := t1 ++ [Println0, Println1 "No devices discovered."],
        outcome := .returned none, world := w1 }

/-- The action of the `discover` command; `sched` is the schedule of the
spinner goroutine. -/
def Command.Discover.Action {W : Type} (lib : Lib W) (c : Context) (sched : Nat → Nat) (w : W) :
    Run W :=
  let main := discoverMain lib c w
  { trace := Event.print "Discovering" :: weave sched 0 main.trace,
    outcome := main.outcome, world := main.world }

/-! ## Reading a trace -/

/-- Calls into the device library. -/
def Event.isLibCall : Event → Bool
  | .new _ _ _ => true
  | .setColor _ _ _ => true
  | .setState _ _ _ => true
  | .getDeviceState _ _ => true
  | .close _ _ => true
  | .discover _ _ => true
  | _ => false

/-- The error returned by a call made on an opened controller, or by `Discover`. -/
def Event.failure : Event → Option Err
  | .setColor _ _ (some e) => some e
  | .setState _ _ (some e) => some e
  | .getDeviceState _ (.err e) => some e
  | .close _ (some e) => some e
  | .discover _ (.err e) => some e
  | _ => none

/-- The controller a session operation is invoked on. -/
def Event.target : Event → Option Controller
  | .setColor c _ _ => some c
  | .setState c _ _ => some c
  | .getDeviceState c _ => some c
  | .close c _ => some c
  | _ => none

/-- Calls of `Close`. -/
def Event.isClose : Event → Bool
  | .close _ _ => true
  | _ => false

/-- Calls of `magichome.New`. -/
def Event.isNew : Event → Bool
  | .new _ _ _ => true
  | _ => false

/-- Calls of `SetState`. -/
def Event.isSetState : Event → Bool
  | .setState _ _ _ => true
  | _ => false

/-- Calls of `SetColor`. -/
def Event.isSetColor : Event → Bool
  | .setColor _ _ _ => true
  | _ => false

/-- Writes of the main goroutine to standard output. -/
def Event.isPrint : Event → Bool
  | .print _ => true
  | _ => false

/-- Writes of the spinner goroutine. -/
def Event.isSpinner : Event → Bool
  | .spinner => true
  | _ => false

/-- A run stops at a failed call: whenever a call on an opened controller, or
`Discover`, returned the error `e`, the action returned `e` and no library
call follows it in the trace. -/
def FailStop {W : Type} (r : Run W) : Prop :=
  ∀ pre ev post e, r.trace = pre ++ ev :: post → ev.failure = some e →
    r.outcome = .returned (some e) ∧ ∀ x ∈ post, x.isLibCall = false

/-- Executable form of `FailStop` on a trace and an outcome. -/
def failStopFrom (out : Outcome) : List Event → Bool
  | [] => true
  | ev :: rest =>
    (match ev.failure with
      | some e => decide (out = .returned (some e)) && rest.all (fun x => !x.isLibCall)
      | none => true) && failStopFrom out rest

/-- The session of the spec: Unopened, then Open on the controller that `New`
returned, then Closed. -/
inductive Session where
  | Unopened
  | Open (c : Controller)
  | Closed
  deriving DecidableEq, Repr

/-- One event against the session: `New` is accepted only before the session is
opened and opens it when it succeeds; `SetColor`, `SetState`, `GetDeviceState`
and `Close` are accepted only in `Open` and only on the opened controller;
`Close` ends the session.  Events that are no session operation leave the
session as it is. -/
def Session.step : Session → Event → Option Session
  | .Unopened, .new _ _ (.ok c) => some (.Open c)
  | .Unopened, .new _ _ (.err _) => some .Unopened
  | _, .new _ _ _ => none
  | .Open c, .setColor d _ _ => if d = c then some (.Open c) else none
  | .Open c, .setState d _ _ => if d = c then some (.Open c) else none
  | .Open c, .getDeviceState d _ => if d = c then some (.Open c) else none
  | .Open c, .close d _ => if d = c then some .Closed else none
  | _, .setColor _ _ _ => none
  | _, .setState _ _ _ => none
  | _, .getDeviceState _ _ => none
  | _, .close _ _ => none
  | s, _ => some s

/-- The session after a whole trace, `none` when some event is not accepted. -/
def Session.run : Session → List Event → Option Session
  | s, [] => some s
  | s, ev :: rest =>
    match s.step ev with
    | some s1 => Session.run s1 rest
    | none => none

/-- A trace keeps the session discipline: every session operation is invoked on
a controller that an earlier `New` returned without error and that no earlier
`Close` has closed. -/
def SessionDiscipline (t : List Event) : Prop :=
  ∀ pre ev post c, t = pre ++ ev :: post → ev.target = some c →
    (∃ ip port, Event.new ip port (.ok c) ∈ pre) ∧ ∀ res, Event.close c res ∉ pre

/-- What a session state records about the events seen so far: no `Close` before
the session is closed, and in `Open` the successful `New` that produced the
controller. -/
def Session.Inv : Session → List Event → Prop
  | .Unopened, h => ∀ x ∈ h, x.isClose = false
  | .Open c, h => (∃ ip port, Event.new ip port (.ok c) ∈ h) ∧ ∀ x ∈ h, x.isClose = false
  | .Closed, _ => True

/-- A trace respects the session state machine: the automaton accepts it from
`Unopened`, every session operation is on an opened and not yet closed
controller, and `Close` is called at most once. -/
def KeepsSession (t : List Event) : Prop :=
  (∃ s, Session.run .Unopened t = some s) ∧ SessionDiscipline t ∧
    (t.filter Event.isClose).length ≤ 1

/-- Executable form of `KeepsSession`. -/
def sessionCheck (t : List Event) : Bool :=
  (Session.run .Unopened t).isSome && decide ((t.filter Event.isClose).length ≤ 1)

/-- The call of `Close` happens exactly once, on `ctl`, and is the last event of the trace. -/
def ClosedOnceAtEnd (t : List Event) (ctl : Controller) : Prop :=
  (∃ res, t.getLast? = some (.close ctl res)) ∧ (t.filter Event.isClose).length = 1

/-- The session on `ctl` was opened and `Close` is never called. -/
def LeftOpen (t : List Event) (ctl : Controller) : Prop :=
  (∃ ip port, Event.new ip port (.ok ctl) ∈ t) ∧ t.filter Event.isClose = []

/-! ## A scripted library for concrete runs -/

/-- What each library call answers in a scripted run. -/
structure Script where
  new : Res Controller
  op : Option Err
  get : Res DeviceState
  close : Option Err
  marshal : Res String
  discover : Res (List Device)

/-- Decimal digits to a byte, for scripted runs. -/
def Script.byte (s : String) : Nat :=
  s.data.foldl (fun n ch => 10 * n + (ch.toNat - 48)) 0 % 256

/-- Dotted rendering of an address, for scripted runs. -/
def Script.dotted (ip : IP) : String :=
  ".".intercalate (ip.map Nat.repr)

/-- The library answering from a script; the world state counts the calls made.
`ParseIP` knows the one literal used in the scripted runs. -/
def Script.lib (s : Script) : Lib Nat where
  ParseIP := fun a =>
    if a = "192.168.1.10" then some [0, 0, 0, 0, 0, 0, 0, 0, 0, 0, 255, 255, 192, 168, 1, 10]
    else none
  unicodeLower := fun ch => ch
  ParseStringToUint8 := Script.byte
  IPString := Script.dotted
  Marshal := fun _ => s.marshal
  New := fun w _ _ => (s.new, w + 1)
  SetColor := fun w _ _ => (s.op, w + 1)
  SetState := fun w _ _ => (s.op, w + 1)
  GetDeviceState := fun w _ => (s.get, w + 1)
  Close := fun w _ => (s.close, w + 1)
  Discover := fun w _ => (s.discover, w + 1)

/-- A snapshot: powered on, colour (10, 20, 30, 0). -/
def Script.snapshot : DeviceState :=
  { State := State.On, Color := { R := 10, G := 20, B := 30, W := 0 } }

/-- Every call succeeds. -/
def Script.allOk : Script where
  new := .ok 1
  op := none
  get := .ok Script.snapshot
  close := none
  marshal := .ok "snapshot"
  discover := .ok [{ IP := [192, 168, 1, 20], ID := "AABBCC", Model := "AK001" },
                   { IP := [192, 168, 1, 21], ID := "DDEEFF", Model := "AK001" }]

/-- The device cannot be reached: `New` fails. -/
def Script.unreachable : Script :=
  { Script.allOk with new := .err "unreachable" }

/-- The session opens, the operation on it fails. -/
def Script.opFails : Script :=
  { Script.allOk with op := some "write failed", get := .err "timeout" }

/-- Everything succeeds up to `Close`, which fails. -/
def Script.closeFails : Script :=
  { Script.allOk with close := some "close failed" }

/-- The snapshot is read, its serialisation fails. -/
def Script.marshalFails : Script :=
  { Script.allOk with marshal := .err "marshal failed" }

/-- Discovery cannot send its probe. -/
def Script.noBroadcast : Script :=
  { Script.allOk with discover := .err "broadcast unavailable" }

/-- Discovery ends with no reply. -/
def Script.noDevices : Script :=
  { Script.allOk with discover := .ok [] }

/-- A context with the given positional arguments, port 5577, timeout 1, the
default broadcast address and the given `json` flag. -/
def Script.ctx (args : List String) (json : Bool) : Context where
  args := args
  intFlag := fun n => if n = "port" then 5577 else if n = "timeout" then 1 else 0
  boolFlag := fun n => if n = "json" then json else false
  stringFlag := fun n => if n = "broadcastaddr" then "255.255.255.255" else ""

/-- A context whose integer flags are out of range: port 70000, timeout 256. -/
def Script.wideCtx : Context where
  args := ["192.168.1.10"]
  intFlag := fun n => if n = "port" then 70000 else if n = "timeout" then 256 else 0
  boolFlag := fun _ => false
  stringFlag := fun n => if n = "broadcastaddr" then "255.255.255.255" else ""

/-- A spinner schedule: one tick while `Discover` runs, none afterwards. -/
def Script.sched : Nat → Nat
  | 0 => 1
  | _ => 0

/-! ## Facts about the helpers -/

/-- C1: when `magichome.New` fails with `e`, the `state` and `status` actions return `e`; the
`color` action returns nil instead, so for `color` the failure is turned into a successful
result. -/
theorem open_error_outcomes {W : Type} (lib : Lib W) (c : Context) (w : W) (ip : IP) (port : Nat)
    (e : Err) :
    (Event.new ip port (.err e) ∈ (Command.Color.Action lib c w).trace →
      (Command.Color.Action lib c w).outcome = .returned none) ∧
    (Event.new ip port (.err e) ∈ (Command.State.Action lib c w).trace →
      (Command.State.Action lib c w).outcome = .returned (some e)) ∧
    (Event.new ip port (.err e) ∈ (Command.Status.Action lib c w).trace →
      (Command.Status.Action lib c w).outcome = .returned (some e)) := by
  refine ⟨?_, ?_, ?_⟩
  · generalize hr : Command.Color.Action lib c w = r
    simp only [Command.Color.Action] at hr
    repeat' split at hr
    all_goals (subst hr; simp_all [Println2])
  · generalize hr : Command.State.Action lib c w = r
    simp only [Command.State.Action] at hr
    repeat' split at hr
    all_goals (subst hr; simp_all [Println2])
  · generalize hr : Command.Status.Action lib c w = r
    simp only [Command.Status.Action, closeAndReturn, statusLines] at hr
    repeat' split at hr
    all_goals (subst hr; simp_all [Println2, Println1])


/-- C1 at a concrete input: `color 192.168.1.10 255 0 128 0` against a device that cannot be
reached makes one failed `New` call and returns nil; `state` and `status` against the same
device return the error. -/
theorem open_error_outcomes_witness :
    (Command.Color.Action Script.unreachable.lib
        (Script.ctx ["192.168.1.10", "255", "0", "128", "0"] false) 0).trace
      = [.new [0, 0, 0, 0, 0, 0, 0, 0, 0, 0, 255, 255, 192, 168, 1, 10] 5577 (.err "unreachable")] ∧
    (Command.Color.Action Script.unreachable.lib
        (Script.ctx ["192.168.1.10", "255", "0", "128", "0"] false) 0).outcome = .returned none ∧
    (Command.State.Action Script.unreachable.lib (Script.ctx ["192.168.1.10", "on"] false) 0).outcome
      = .returned (some "unreachable") ∧
    (Command.Status.Action Script.unreachable.lib (Script.ctx ["192.168.1.10"] false) 0).outcome
      = .returned (some "unreachable") :=
  ⟨by decide,
   (open_error_outcomes Script.unreachable.lib
      (Script.ctx ["192.168.1.10", "255", "0", "128", "0"] false) 0
      [0, 0, 0, 0, 0, 0, 0, 0, 0, 0, 255, 255, 192, 168, 1, 10] 5577 "unreachable").1 (by decide),
   (open_error_outcomes Script.unreachable.lib (Script.ctx ["192.168.1.10", "on"] false) 0
      [0, 0, 0, 0, 0, 0, 0, 0, 0, 0, 255, 255, 192, 168, 1, 10] 5577 "unreachable").2.1 (by decide),
   (open_error_outcomes Script.unreachable.lib (Script.ctx ["192.168.1.10"] false) 0
      [0, 0, 0, 0, 0, 0, 0, 0, 0, 0, 255, 255, 192, 168, 1, 10] 5577 "unreachable").2.2 (by decide)⟩

/-! ## Stopping at a failed call -/

/-- The executable check implies `FailStop`. -/
theorem failStop_of_check (out : Outcome) :
    ∀ (t pre : List Event) (ev : Event) (post : List Event) (e : Err),
      failStopFrom out t = true → t = pre ++ ev :: post → ev.failure = some e →
      out = .returned (some e) ∧ ∀ x ∈ post, x.isLibCall = false := by
  intro t pre
  induction pre generalizing t with
  | nil =>
    intro ev post e hc ht hf
    subst ht
    simp only [List.nil_append, failStopFrom, hf, Bool.and_eq_true, decide_eq_true_eq,
      List.all_eq_true, Bool.not_eq_true'] at hc
    exact ⟨hc.1.1, hc.1.2⟩
  | cons a pre ih =>
    intro ev post e hc ht hf
    subst ht
    simp only [List.cons_append, failStopFrom, Bool.and_eq_true] at hc
    exact ih (pre ++ ev :: post) ev post e hc.2 rfl hf

/-- A run whose trace passes the check stops at a failed call. -/
theorem failStop_of_trace_check {W : Type} (r : Run W) (h : failStopFrom r.outcome r.trace = true) :
    FailStop r :=
  fun pre ev post e ht hf => failStop_of_check r.outcome r.trace pre ev post e h ht hf

/-- A trace with no failed call passes the check. -/
theorem failStopFrom_of_no_failure (out : Outcome) (t : List Event)
    (h : ∀ x ∈ t, x.failure = none) : failStopFrom out t = true := by
  induction t with
  | nil => rfl
  | cons a t ih =>
    have ha : a.failure = none := h a (List.mem_cons_self a t)
    simp only [failStopFrom, ha, Bool.true_and]
    exact ih (fun x hx => h x (List.mem_cons_of_mem a hx))

/-- Spinner writes in front of a trace do not change the check. -/
theorem failStopFrom_spinners (out : Outcome) (n : Nat) (t : List Event) :
    failStopFrom out (List.replicate n Event.spinner ++ t) = failStopFrom out t := by
  induction n with
  | zero => rfl
  | succ n ih => simp [List.replicate_succ, failStopFrom, Event.failure, ih]

/-- Spinner writes are no library call. -/
theorem all_notLib_spinners (n : Nat) (t : List Event) :
    (List.replicate n Event.spinner ++ t).all (fun x => !x.isLibCall)
      = t.all (fun x => !x.isLibCall) := by
  induction n with
  | zero => rfl
  | succ n ih => simp only [List.replicate_succ, List.cons_append, List.all_cons, ih]; rfl

/-- Weaving the spinner into a trace adds no library call. -/
theorem all_notLib_weave (sched : Nat → Nat) (t : List Event) :
    ∀ k, (weave sched k t).all (fun x => !x.isLibCall) = t.all (fun x => !x.isLibCall) := by
  induction t with
  | nil =>
    intro k
    have := all_notLib_spinners (sched k) []
    simpa [weave] using this
  | cons a t ih =>
    intro k
    simp only [weave, all_notLib_spinners, List.all_cons, ih]

/-- Weaving the spinner into a trace does not change the check. -/
theorem failStopFrom_weave (out : Outcome) (sched : Nat → Nat) (t : List Event) :
    ∀ k, failStopFrom out (weave sched k t) = failStopFrom out t := by
  induction t with
  | nil =>
    intro k
    have := failStopFrom_spinners out (sched k) []
    simpa [weave] using this
  | cons a t ih =>
    intro k
    simp only [weave, failStopFrom_spinners, failStopFrom, all_notLib_weave, ih]

/-- C2: in every command, when `SetColor`, `SetState`, `GetDeviceState`, `Close` or `Discover`
returns an error `e`, the action returns exactly `e` and makes no library call after the failed
one (so the failed call is not repeated). -/
theorem failed_call_is_returned {W : Type} (lib : Lib W) (c : Context) (sched : Nat → Nat)
    (w : W) :
    FailStop (Command.Color.Action lib c w) ∧ FailStop (Command.State.Action lib c w) ∧
    FailStop (Command.Status.Action lib c w) ∧
    FailStop (Command.Discover.Action lib c sched w) := by
  refine ⟨?_, ?_, ?_, ?_⟩
  · apply failStop_of_trace_check
    generalize hr : Command.Color.Action lib c w = r
    simp only [Command.Color.Action] at hr
    repeat' split at hr
    all_goals (subst hr; simp [failStopFrom, Event.failure, Event.isLibCall, Println2])
  · apply failStop_of_trace_check
    generalize hr : Command.State.Action lib c w = r
    simp only [Command.State.Action] at hr
    repeat' split at hr
    all_goals (subst hr; simp [failStopFrom, Event.failure, Event.isLibCall, Println2])
  · apply failStop_of_trace_check
    generalize hr : Command.Status.Action lib c w = r
    simp only [Command.Status.Action, closeAndReturn, statusLines] at hr
    repeat' split at hr
    all_goals
      (subst hr; simp [failStopFrom, Event.failure, Event.isLibCall, Println2, Println1])
  · apply failStop_of_trace_check
    simp only [Command.Discover.Action, failStopFrom, Event.failure, Bool.true_and,
      failStopFrom_weave]
    generalize hr : discoverMain lib c w = r
    simp only [discoverMain] at hr
    repeat' split at hr
    · subst hr; simp [failStopFrom, Event.failure]
    · subst hr
      apply failStopFrom_of_no_failure
      intro x hx
      simp only [List.append_assoc, List.singleton_append, List.mem_cons, List.mem_append,
        List.mem_map, tableHeader, Println0, Println1, deviceRow] at hx
      rcases hx with (h | h | h | h | h | h | h) | ⟨d, _, h⟩
      all_goals first | (subst h; rfl) | exact absurd h (List.not_mem_nil _)
    · subst hr; simp [failStopFrom, Event.failure, Println0, Println1]

/-- C2 at concrete inputs: `color` against a device whose write fails returns that error,
`color` whose `Close` fails returns the error of `Close`, and `discover` whose probe cannot be
sent returns the error of `Discover`. -/
theorem failed_call_is_returned_witness :
    (Command.Color.Action Script.opFails.lib
        (Script.ctx ["192.168.1.10", "255", "0", "128", "0"] false) 0).outcome
      = .returned (some "write failed") ∧
    (Command.Color.Action Script.closeFails.lib
        (Script.ctx ["192.168.1.10", "255", "0", "128", "0"] false) 0).outcome
      = .returned (some "close failed") ∧
    (Command.Discover.Action Script.noBroadcast.lib (Script.ctx [] false) Script.sched 0).outcome
      = .returned (some "broadcast unavailable") :=
  ⟨((failed_call_is_returned Script.opFails.lib
      (Script.ctx ["192.168.1.10", "255", "0", "128", "0"] false) Script.sched 0).1
      [.new [0, 0, 0, 0, 0, 0, 0, 0, 0, 0, 255, 255, 192, 168, 1, 10] 5577 (.ok 1)]
      (.setColor 1 ⟨255, 0, 128, 0⟩ (some "write failed")) [] "write failed"
      (by decide) (by decide)).1,
   ((failed_call_is_returned Script.closeFails.lib
      (Script.ctx ["192.168.1.10", "255", "0", "128", "0"] false) Script.sched 0).1
      [.new [0, 0, 0, 0, 0, 0, 0, 0, 0, 0, 255, 255, 192, 168, 1, 10] 5577 (.ok 1),
       .setColor 1 ⟨255, 0, 128, 0⟩ none]
      (.close 1 (some "close failed")) [] "close failed" (by decide) (by decide)).1,
   ((failed_call_is_returned Script.noBroadcast.lib (Script.ctx [] false) Script.sched 0).2.2.2
      [.print "Discovering", .spinner]
      (.discover { BroadcastAddr := "255.255.255.255", Timeout := 1 }
        (.err "broadcast unavailable")) [] "broadcast unavailable" (by decide) (by decide)).1⟩

/-! ## The session automaton -/

/-- Appending an event that is no `Close` keeps a history free of `Close`. -/
theorem noClose_snoc (h : List Event) (ev : Event) (hh : ∀ x ∈ h, x.isClose = false)
    (hev : ev.isClose = false) : ∀ x ∈ h ++ [ev], x.isClose = false := by
  intro x hx
  rcases List.mem_append.1 hx with hx | hx
  · exact hh x hx
  · rw [List.mem_singleton.1 hx]; exact hev

/-- One accepted event keeps the invariant. -/
theorem Session.step_inv (s s1 : Session) (h : List Event) (ev : Event)
    (hi : Session.Inv s h) (hs : s.step ev = some s1) : Session.Inv s1 (h ++ [ev]) := by
  cases s <;> cases ev
  case Unopened.new ip port res =>
    cases res <;> simp only [Session.step, Option.some.injEq] at hs <;> subst hs
    · exact ⟨⟨ip, port, by simp⟩, noClose_snoc h _ hi rfl⟩
    · exact noClose_snoc h _ hi rfl
  all_goals simp only [Session.step] at hs
  all_goals (try split_ifs at hs)
  all_goals (try cases hs)
  all_goals first
    | trivial
    | exact noClose_snoc h _ hi rfl
    | (obtain ⟨⟨ip, port, hm⟩, hc⟩ := hi
       exact ⟨⟨ip, port, List.mem_append_left _ hm⟩, noClose_snoc h _ hc rfl⟩)

/-- An accepted trace keeps the invariant. -/
theorem Session.run_inv :
    ∀ (t h : List Event) (s s1 : Session), Session.Inv s h → Session.run s t = some s1 →
      Session.Inv s1 (h ++ t) := by
  intro t
  induction t with
  | nil =>
    intro h s s1 hi hr
    simp only [Session.run, Option.some.injEq] at hr
    subst hr
    simpa using hi
  | cons ev t ih =>
    intro h s s1 hi hr
    simp only [Session.run] at hr
    split at hr
    · rename_i s2 hs
      have := ih (h ++ [ev]) s2 s1 (Session.step_inv s s2 h ev hi hs) hr
      simpa using this
    · exact absurd hr (by simp)

/-- An accepted trace splits at any of its events into an accepted prefix and an
accepted step. -/
theorem Session.run_split :
    ∀ (pre : List Event) (s s2 : Session) (ev : Event) (post : List Event),
      Session.run s (pre ++ ev :: post) = some s2 →
      ∃ s0 s1, Session.run s pre = some s0 ∧ s0.step ev = some s1 := by
  intro pre
  induction pre with
  | nil =>
    intro s s2 ev post hr
    simp only [List.nil_append, Session.run] at hr
    split at hr
    · rename_i s1 hs
      exact ⟨s, s1, rfl, hs⟩
    · exact absurd hr (by simp)
  | cons a pre ih =>
    intro s s2 ev post hr
    simp only [List.cons_append, Session.run] at hr
    split at hr
    · rename_i s1 hs
      obtain ⟨s0, s3, h0, h3⟩ := ih s1 s2 ev post hr
      exact ⟨s0, s3, by simp only [Session.run, hs, h0], h3⟩
    · exact absurd hr (by simp)

/-- A session operation is accepted only in `Open` on its own controller. -/
theorem Session.step_target (s s1 : Session) (ev : Event) (c : Controller)
    (hs : s.step ev = some s1) (ht : ev.target = some c) : s = .Open c := by
  cases ev with
  | setColor d col res =>
    simp only [Event.target, Option.some.injEq] at ht
    cases s with
    | Open c0 =>
      simp only [Session.step] at hs
      split_ifs at hs with hd
      rw [← ht, hd]
    | Unopened => simp [Session.step] at hs
    | Closed => simp [Session.step] at hs
  | setState d st res =>
    simp only [Event.target, Option.some.injEq] at ht
    cases s with
    | Open c0 =>
      simp only [Session.step] at hs
      split_ifs at hs with hd
      rw [← ht, hd]
    | Unopened => simp [Session.step] at hs
    | Closed => simp [Session.step] at hs
  | getDeviceState d res =>
    simp only [Event.target, Option.some.injEq] at ht
    cases s with
    | Open c0 =>
      simp only [Session.step] at hs
      split_ifs at hs with hd
      rw [← ht, hd]
    | Unopened => simp [Session.step] at hs
    | Closed => simp [Session.step] at hs
  | close d res =>
    simp only [Event.target, Option.some.injEq] at ht
    cases s with
    | Open c0 =>
      simp only [Session.step] at hs
      split_ifs at hs with hd
      rw [← ht, hd]
    | Unopened => simp [Session.step] at hs
    | Closed => simp [Session.step] at hs
  | print _ => simp [Event.target] at ht
  | spinner => simp [Event.target] at ht
  | showCommandHelpAndExit _ _ => simp [Event.target] at ht
  | new _ _ _ => simp [Event.target] at ht
  | discover _ _ => simp [Event.target] at ht

/-- A trace the automaton accepts from `Unopened` keeps the session discipline. -/
theorem sessionDiscipline_of_run (t : List Event) (s2 : Session)
    (h : Session.run .Unopened t = some s2) : SessionDiscipline t := by
  intro pre ev post c ht htar
  subst ht
  obtain ⟨s0, s1, h0, h1⟩ := Session.run_split pre .Unopened s2 ev post h
  have hopen := Session.step_target s0 s1 ev c h1 htar
  subst hopen
  have hinv := Session.run_inv pre [] .Unopened (.Open c) (by simp [Session.Inv]) h0
  simp only [List.nil_append, Session.Inv] at hinv
  refine ⟨hinv.1, ?_⟩
  intro res hmem
  have := hinv.2 _ hmem
  simp [Event.isClose] at this

/-- The executable check implies `KeepsSession`. -/
theorem keepsSession_of_check (t : List Event) (h : sessionCheck t = true) : KeepsSession t := by
  simp only [sessionCheck, Bool.and_eq_true, decide_eq_true_eq, Option.isSome_iff_exists] at h
  obtain ⟨⟨s, hs⟩, hc⟩ := h
  exact ⟨⟨s, hs⟩, sessionDiscipline_of_run t s hs, hc⟩

/-- C5: on every path of the `color`, `state` and `status` actions the trace respects the session
state machine Unopened, Open, Closed: `SetColor`, `SetState`, `GetDeviceState` and `Close` are
invoked only on a controller that an earlier `New` returned without error and that has not been
closed, and `Close` is invoked at most once. -/
theorem session_state_machine_respected {W : Type} (lib : Lib W) (c : Context) (w : W) :
    KeepsSession (Command.Color.Action lib c w).trace ∧
    KeepsSession (Command.State.Action lib c w).trace ∧
    KeepsSession (Command.Status.Action lib c w).trace := by
  refine ⟨?_, ?_, ?_⟩
  · apply keepsSession_of_check
    generalize hr : Command.Color.Action lib c w = r
    simp only [Command.Color.Action] at hr
    repeat' split at hr
    all_goals
      (subst hr; simp [sessionCheck, Session.run, Session.step, Event.isClose, Println2])
  · apply keepsSession_of_check
    generalize hr : Command.State.Action lib c w = r
    simp only [Command.State.Action] at hr
    repeat' split at hr
    all_goals
      (subst hr; simp [sessionCheck, Session.run, Session.step, Event.isClose, Println2])
  · apply keepsSession_of_check
    generalize hr : Command.Status.Action lib c w = r
    simp only [Command.Status.Action, closeAndReturn, statusLines] at hr
    repeat' split at hr
    all_goals
      (subst hr
       simp [sessionCheck, Session.run, Session.step, Event.isClose, Println2, Println1])

/-- C5 at a concrete input: in `status 192.168.1.10` with every call succeeding, the `Close`
call, last in the trace, is on the controller that `New` returned and no `Close` precedes it. -/
theorem session_state_machine_respected_witness :
    (∃ ip port, Event.new ip port (.ok 1) ∈
        [Event.new [0, 0, 0, 0, 0, 0, 0, 0, 0, 0, 255, 255, 192, 168, 1, 10] 5577 (.ok 1),
         Event.getDeviceState 1 (.ok Script.snapshot), Event.print "snapshot\n"]) ∧
    ∀ res, Event.close 1 res ∉
        [Event.new [0, 0, 0, 0, 0, 0, 0, 0, 0, 0, 255, 255, 192, 168, 1, 10] 5577 (.ok 1),
         Event.getDeviceState 1 (.ok Script.snapshot), Event.print "snapshot\n"] :=
  (session_state_machine_respected Script.allOk.lib (Script.ctx ["192.168.1.10"] true) 0).2.2.2.1
    [.new [0, 0, 0, 0, 0, 0, 0, 0, 0, 0, 255, 255, 192, 168, 1, 10] 5577 (.ok 1),
     .getDeviceState 1 (.ok Script.snapshot), .print "snapshot\n"]
    (.close 1 none) [] 1 (by decide) rfl

/-! ## The `state` command -/

/-- C3: in the `state` command with a valid IP argument, the lower-cased second argument decides
the power state: for `on` every `SetState` call carries `On`, for `off` every call carries `Off`,
`New` is called, and after a successful open `SetState` is called exactly once with that value on
the opened controller; for every other token, the empty string included, the action makes no
library call at all (no session is opened, `SetState` is never called).  Lower-casing maps
`ON`, `On` to `on` and `OFF`, `oFf` to `off` whatever the Unicode table is. -/
theorem state_token_decides_power {W : Type} (lib : Lib W) (c : Context) (w : W) (ip : IP)
    (hip : lib.ParseIP (c.Get 0) = some ip) :
    (ToLower lib.unicodeLower (c.Get 1) = "on" →
      (∃ res, Event.new ip (toUint16 (c.intFlag "port")) res ∈
        (Command.State.Action lib c w).trace) ∧
      (∀ ctl s res, Event.setState ctl s res ∈ (Command.State.Action lib c w).trace →
        s = State.On) ∧
      (∀ ip0 port ctl, Event.new ip0 port (.ok ctl) ∈ (Command.State.Action lib c w).trace →
        ∃ res, (Command.State.Action lib c w).trace.filter Event.isSetState
          = [.setState ctl State.On res])) ∧
    (ToLower lib.unicodeLower (c.Get 1) = "off" →
      (∃ res, Event.new ip (toUint16 (c.intFlag "port")) res ∈
        (Command.State.Action lib c w).trace) ∧
      (∀ ctl s res, Event.setState ctl s res ∈ (Command.State.Action lib c w).trace →
        s = State.Off) ∧
      (∀ ip0 port ctl, Event.new ip0 port (.ok ctl) ∈ (Command.State.Action lib c w).trace →
        ∃ res, (Command.State.Action lib c w).trace.filter Event.isSetState
          = [.setState ctl State.Off res])) ∧
    (ToLower lib.unicodeLower (c.Get 1) ≠ "on" → ToLower lib.unicodeLower (c.Get 1) ≠ "off" →
      ∀ x ∈ (Command.State.Action lib c w).trace, x.isLibCall = false) ∧
    (ToLower lib.unicodeLower "" ≠ "on" ∧ ToLower lib.unicodeLower "" ≠ "off") ∧
    (ToLower lib.unicodeLower "ON" = "on" ∧ ToLower lib.unicodeLower "On" = "on" ∧
      ToLower lib.unicodeLower "OFF" = "off" ∧ ToLower lib.unicodeLower "oFf" = "off") := by
  have hne : ¬ (("off" : String) = "on") := by decide
  refine ⟨?_, ?_, ?_, ?_, ⟨rfl, rfl, rfl, rfl⟩⟩
  · intro hon
    generalize hr : Command.State.Action lib c w = r
    simp only [Command.State.Action, hip, hon, if_true] at hr
    repeat' split at hr
    all_goals
      (subst hr; simp [Event.isSetState]
       try exact ⟨fun _ _ _ _ h _ => h, fun _ _ _ _ _ h => h.symm⟩)
  · intro hoff
    generalize hr : Command.State.Action lib c w = r
    simp only [Command.State.Action, hip, hoff, hne, if_false, if_true] at hr
    repeat' split at hr
    all_goals
      (subst hr; simp [Event.isSetState]
       try exact ⟨fun _ _ _ _ h _ => h, fun _ _ _ _ _ h => h.symm⟩)
  · intro hon hoff
    generalize hr : Command.State.Action lib c w = r
    simp only [Command.State.Action, hip, hon, hoff, if_false] at hr
    subst hr
    simp [Event.isLibCall, Println2]
  · have hempty : ToLower lib.unicodeLower "" = "" := rfl
    rw [hempty]
    decide

/-- C3 at concrete inputs: `state 192.168.1.10 ON` calls `SetState` once with `On`,
`state 192.168.1.10 Off` once with `Off`, and `state 192.168.1.10 bogus` makes no library call. -/
theorem state_token_decides_power_witness :
    (∃ res, (Command.State.Action Script.allOk.lib
        (Script.ctx ["192.168.1.10", "ON"] false) 0).trace.filter Event.isSetState
      = [.setState 1 State.On res]) ∧
    (∃ res, (Command.State.Action Script.allOk.lib
        (Script.ctx ["192.168.1.10", "Off"] false) 0).trace.filter Event.isSetState
      = [.setState 1 State.Off res]) ∧
    (∀ x ∈ (Command.State.Action Script.allOk.lib
        (Script.ctx ["192.168.1.10", "bogus"] false) 0).trace, x.isLibCall = false) :=
  ⟨((state_token_decides_power Script.allOk.lib (Script.ctx ["192.168.1.10", "ON"] false) 0
      [0, 0, 0, 0, 0, 0, 0, 0, 0, 0, 255, 255, 192, 168, 1, 10] (by decide)).1 (by decide)).2.2
      [0, 0, 0, 0, 0, 0, 0, 0, 0, 0, 255, 255, 192, 168, 1, 10] 5577 1 (by decide),
   ((state_token_decides_power Script.allOk.lib (Script.ctx ["192.168.1.10", "Off"] false) 0
      [0, 0, 0, 0, 0, 0, 0, 0, 0, 0, 255, 255, 192, 168, 1, 10] (by decide)).2.1 (by decide)).2.2
      [0, 0, 0, 0, 0, 0, 0, 0, 0, 0, 255, 255, 192, 168, 1, 10] 5577 1 (by decide),
   (state_token_decides_power Script.allOk.lib (Script.ctx ["192.168.1.10", "bogus"] false) 0
      [0, 0, 0, 0, 0, 0, 0, 0, 0, 0, 255, 255, 192, 168, 1, 10] (by decide)).2.2.1
      (by decide) (by decide)⟩

/-! ## The address argument -/

/-- C4 as stated fails: in `state 192.168.1.10 bogus` the first argument parses as an IP, yet the
action prints the invalid-state message, shows the help and exits without calling `New`. -/
theorem state_valid_ip_invalid_token_no_new :
    Script.allOk.lib.ParseIP ((Script.ctx ["192.168.1.10", "bogus"] false).Get 0)
      = some [0, 0, 0, 0, 0, 0, 0, 0, 0, 0, 255, 255, 192, 168, 1, 10] ∧
    (Command.State.Action Script.allOk.lib (Script.ctx ["192.168.1.10", "bogus"] false) 0).trace
      = [.print "Invalid state:  bogus\n", .showCommandHelpAndExit "state" 1] ∧
    (Command.State.Action Script.allOk.lib (Script.ctx ["192.168.1.10", "bogus"] false) 0).outcome
      = .exited 1 ∧
    ¬ ∃ ip port res, Event.new ip port res ∈
      (Command.State.Action Script.allOk.lib (Script.ctx ["192.168.1.10", "bogus"] false) 0).trace := by
  refine ⟨by decide, by decide, by decide, ?_⟩
  rintro ⟨ip, port, res, h⟩
  have ht : (Command.State.Action Script.allOk.lib
      (Script.ctx ["192.168.1.10", "bogus"] false) 0).trace
      = [.print "Invalid state:  bogus\n", .showCommandHelpAndExit "state" 1] := by decide
  rw [ht] at h
  simp at h

/-- C4, amended: when the first argument does not parse as an IP, none of the `color`, `state`
and `status` actions makes a library call; when it parses to `ip`, the `color` and `status`
actions call `New` exactly once, with `ip` and the narrowed port, the `state` action does the same
when the lower-cased second argument is `on` or `off`, and does not call `New` otherwise. -/
theorem new_called_with_parsed_ip {W : Type} (lib : Lib W) (c : Context) (w : W) :
    (lib.ParseIP (c.Get 0) = none →
      (∀ x ∈ (Command.Color.Action lib c w).trace, x.isLibCall = false) ∧
      (∀ x ∈ (Command.State.Action lib c w).trace, x.isLibCall = false) ∧
      (∀ x ∈ (Command.Status.Action lib c w).trace, x.isLibCall = false)) ∧
    (∀ ip, lib.ParseIP (c.Get 0) = some ip →
      (Command.Color.Action lib c w).trace.filter Event.isNew
        = [.new ip (toUint16 (c.intFlag "port")) (lib.New w ip (toUint16 (c.intFlag "port"))).1] ∧
      (Command.Status.Action lib c w).trace.filter Event.isNew
        = [.new ip (toUint16 (c.intFlag "port")) (lib.New w ip (toUint16 (c.intFlag "port"))).1] ∧
      (ToLower lib.unicodeLower (c.Get 1) = "on" ∨ ToLower lib.unicodeLower (c.Get 1) = "off" →
        (Command.State.Action lib c w).trace.filter Event.isNew
          = [.new ip (toUint16 (c.intFlag "port"))
              (lib.New w ip (toUint16 (c.intFlag "port"))).1]) ∧
      (ToLower lib.unicodeLower (c.Get 1) ≠ "on" → ToLower lib.unicodeLower (c.Get 1) ≠ "off" →
        (Command.State.Action lib c w).trace.filter Event.isNew = [])) := by
  have hne : ¬ (("off" : String) = "on") := by decide
  refine ⟨?_, ?_⟩
  · intro hip
    refine ⟨?_, ?_, ?_⟩
    · simp [Command.Color.Action, hip, Event.isLibCall, Println2]
    · simp [Command.State.Action, hip, Event.isLibCall, Println2]
    · simp [Command.Status.Action, hip, Event.isLibCall, Println2]
  · intro ip hip
    refine ⟨?_, ?_, ?_, ?_⟩
    · generalize hr : Command.Color.Action lib c w = r
      simp only [Command.Color.Action, hip] at hr
      repeat' split at hr
      all_goals (subst hr; simp_all [Event.isNew])
    · generalize hr : Command.Status.Action lib c w = r
      simp only [Command.Status.Action, closeAndReturn, statusLines, hip] at hr
      repeat' split at hr
      all_goals (subst hr; simp_all [Event.isNew, Println1])
    · rintro (hon | hoff)
      · generalize hr : Command.State.Action lib c w = r
        simp only [Command.State.Action, hip, hon, if_true] at hr
        repeat' split at hr
        all_goals (subst hr; simp_all [Event.isNew])
      · generalize hr : Command.State.Action lib c w = r
        simp only [Command.State.Action, hip, hoff, hne, if_false, if_true] at hr
        repeat' split at hr
        all_goals (subst hr; simp_all [Event.isNew])
    · intro hon hoff
      simp [Command.State.Action, hip, hon, hoff, Event.isNew, Println2]

/-- C4 (amended) at concrete inputs: `color not-an-ip` makes no library call, `color` and
`state ... on` with the address `192.168.1.10` call `New` once with the parsed address. -/
theorem new_called_with_parsed_ip_witness :
    (∀ x ∈ (Command.Color.Action Script.allOk.lib (Script.ctx ["not-an-ip"] false) 0).trace,
      x.isLibCall = false) ∧
    (Command.Color.Action Script.allOk.lib
        (Script.ctx ["192.168.1.10", "255", "0", "128", "0"] false) 0).trace.filter Event.isNew
      = [.new [0, 0, 0, 0, 0, 0, 0, 0, 0, 0, 255, 255, 192, 168, 1, 10] 5577 (.ok 1)] ∧
    (Command.State.Action Script.allOk.lib
        (Script.ctx ["192.168.1.10", "on"] false) 0).trace.filter Event.isNew
      = [.new [0, 0, 0, 0, 0, 0, 0, 0, 0, 0, 255, 255, 192, 168, 1, 10] 5577 (.ok 1)] ∧
    (Command.State.Action Script.allOk.lib
        (Script.ctx ["192.168.1.10", "dim"] false) 0).trace.filter Event.isNew = [] :=
  ⟨((new_called_with_parsed_ip Script.allOk.lib (Script.ctx ["not-an-ip"] false) 0).1
      (by decide)).1,
   ((new_called_with_parsed_ip Script.allOk.lib
      (Script.ctx ["192.168.1.10", "255", "0", "128", "0"] false) 0).2
      [0, 0, 0, 0, 0, 0, 0, 0, 0, 0, 255, 255, 192, 168, 1, 10] (by decide)).1,
   ((new_called_with_parsed_ip Script.allOk.lib (Script.ctx ["192.168.1.10", "on"] false) 0).2
      [0, 0, 0, 0, 0, 0, 0, 0, 0, 0, 255, 255, 192, 168, 1, 10] (by decide)).2.2.1
      (Or.inl (by decide)),
   ((new_called_with_parsed_ip Script.allOk.lib (Script.ctx ["192.168.1.10", "dim"] false) 0).2
      [0, 0, 0, 0, 0, 0, 0, 0, 0, 0, 255, 255, 192, 168, 1, 10] (by decide)).2.2.2
      (by decide) (by decide)⟩

/-! ## The `color` command -/

/-- Every `SetColor` call of the `color` action carries the colour built from positional
arguments 1 to 4. -/
theorem color_call_color {W : Type} (lib : Lib W) (c : Context) (w : W) (ctl : Controller)
    (col : Color) (res : Option Err)
    (h : Event.setColor ctl col res ∈ (Command.Color.Action lib c w).trace) :
    col = { R := lib.ParseStringToUint8 (c.Get 1), G := lib.ParseStringToUint8 (c.Get 2),
            B := lib.ParseStringToUint8 (c.Get 3), W := lib.ParseStringToUint8 (c.Get 4) } := by
  generalize hr : Command.Color.Action lib c w = r at h
  simp only [Command.Color.Action] at hr
  repeat' split at hr
  all_goals (subst hr; simp_all [Println2])

/-- C7: in the `color` command, after a successful open, `SetColor` is called exactly once, on
the opened controller, with R, G, B, W the parsed values of positional arguments 1, 2, 3, 4; and
each channel depends only on its own argument: two runs that agree on an argument pass the same
value in its channel, whatever the other arguments, flags and library answers are. -/
theorem color_channels_from_arguments {W : Type} (lib : Lib W) (c : Context) (w : W) :
    (∀ ip port ctl, Event.new ip port (.ok ctl) ∈ (Command.Color.Action lib c w).trace →
      ∃ res, (Command.Color.Action lib c w).trace.filter Event.isSetColor
        = [.setColor ctl
            { R := lib.ParseStringToUint8 (c.Get 1), G := lib.ParseStringToUint8 (c.Get 2),
              B := lib.ParseStringToUint8 (c.Get 3), W := lib.ParseStringToUint8 (c.Get 4) }
            res]) ∧
    (∀ (c2 : Context) (w2 : W) ctl col res ctl2 col2 res2,
      Event.setColor ctl col res ∈ (Command.Color.Action lib c w).trace →
      Event.setColor ctl2 col2 res2 ∈ (Command.Color.Action lib c2 w2).trace →
      (c.Get 1 = c2.Get 1 → col.R = col2.R) ∧ (c.Get 2 = c2.Get 2 → col.G = col2.G) ∧
      (c.Get 3 = c2.Get 3 → col.B = col2.B) ∧ (c.Get 4 = c2.Get 4 → col.W = col2.W)) := by
  refine ⟨?_, ?_⟩
  · generalize hr : Command.Color.Action lib c w = r
    simp only [Command.Color.Action] at hr
    repeat' split at hr
    all_goals (subst hr; simp [Event.isSetColor, Println2])
    all_goals (intro _ _ _ _ _ h; exact h.symm)
  · intro c2 w2 ctl col res ctl2 col2 res2 h1 h2
    rw [color_call_color lib c w ctl col res h1, color_call_color lib c2 w2 ctl2 col2 res2 h2]
    exact ⟨fun h => by simp only [h], fun h => by simp only [h], fun h => by simp only [h],
      fun h => by simp only [h]⟩

/-- C7 at concrete inputs: `color 192.168.1.10 255 0 128 0` calls `SetColor` once with
(255, 0, 128, 0); changing the other three arguments leaves the R channel as it is. -/
theorem color_channels_from_arguments_witness :
    (∃ res, (Command.Color.Action Script.allOk.lib
        (Script.ctx ["192.168.1.10", "255", "0", "128", "0"] false) 0).trace.filter
          Event.isSetColor
      = [.setColor 1 { R := 255, G := 0, B := 128, W := 0 } res]) ∧
    (({ R := 255, G := 0, B := 128, W := 0 } : Color).R
      = ({ R := 255, G := 7, B := 8, W := 9 } : Color).R) :=
  ⟨(color_channels_from_arguments Script.allOk.lib
      (Script.ctx ["192.168.1.10", "255", "0", "128", "0"] false) 0).1
      [0, 0, 0, 0, 0, 0, 0, 0, 0, 0, 255, 255, 192, 168, 1, 10] 5577 1 (by decide),
   ((color_channels_from_arguments Script.allOk.lib
      (Script.ctx ["192.168.1.10", "255", "0", "128", "0"] false) 0).2
      (Script.ctx ["192.168.1.10", "255", "7", "8", "9"] false) 0
      1 { R := 255, G := 0, B := 128, W := 0 } none
      1 { R := 255, G := 7, B := 8, W := 9 } none (by decide) (by decide)).1 (by decide)⟩

/-! ## The `status` command -/

/-- C8: in the `status` command, for every snapshot `ds` that `GetDeviceState` returned: without
the json flag the action writes `Device is: `, then `On` exactly when `ds.State` is `On` and
`Off` otherwise, then the R, G, B, W channels of `ds` in that order in decimal; with the json
flag it writes only the serialisation of `ds` followed by a newline (nothing when serialising
fails). -/
theorem status_output {W : Type} (lib : Lib W) (c : Context) (w : W) (ctl : Controller)
    (ds : DeviceState)
    (h : Event.getDeviceState ctl (.ok ds) ∈ (Command.Status.Action lib c w).trace) :
    (c.boolFlag "json" = false →
      (Command.Status.Action lib c w).trace.filter Event.isPrint
        = [ .print "Device is: ",
            .print (if ds.State = State.On then "On\n" else "Off\n"),
            .print ("Color: \tR: " ++ Nat.repr ds.Color.R ++ " \n\tG: " ++ Nat.repr ds.Color.G
              ++ " \n\tB: " ++ Nat.repr ds.Color.B ++ " \n\tW: " ++ Nat.repr ds.Color.W
              ++ "\n") ]) ∧
    (c.boolFlag "json" = true →
      (∀ res, lib.Marshal ds = .ok res →
        (Command.Status.Action lib c w).trace.filter Event.isPrint = [.print (res ++ "\n")]) ∧
      (∀ e, lib.Marshal ds = .err e →
        (Command.Status.Action lib c w).trace.filter Event.isPrint = [])) := by
  generalize hr : Command.Status.Action lib c w = r at h
  simp only [Command.Status.Action, closeAndReturn, statusLines] at hr
  repeat' split at hr
  all_goals (subst hr; simp_all [Event.isPrint, Println1, Println2, fmtD])

/-- C8 at concrete inputs: `status 192.168.1.10` on the snapshot (On, 10, 20, 30, 0) writes the
three human-readable pieces; with the json flag it writes the serialisation only. -/
theorem status_output_witness :
    (Command.Status.Action Script.allOk.lib (Script.ctx ["192.168.1.10"] false) 0).trace.filter
        Event.isPrint
      = [ .print "Device is: ", .print "On\n",
          .print "Color: \tR: 10 \n\tG: 20 \n\tB: 30 \n\tW: 0\n" ] ∧
    (Command.Status.Action Script.allOk.lib (Script.ctx ["192.168.1.10"] true) 0).trace.filter
        Event.isPrint
      = [ .print "snapshot\n" ] :=
  ⟨(status_output Script.allOk.lib (Script.ctx ["192.168.1.10"] false) 0 1 Script.snapshot
      (by decide)).1 (by decide),
   ((status_output Script.allOk.lib (Script.ctx ["192.168.1.10"] true) 0 1 Script.snapshot
      (by decide)).2 (by decide)).1 "snapshot" (by decide)⟩

/-! ## Releasing the session -/

/-- C9: in the `color`, `state` and `status` actions, when the operation on the opened controller
succeeds (and, in `status` with the json flag, the snapshot serialises), `Close` is called exactly
once and is the last event of the run; when `SetColor`, `SetState` or `GetDeviceState` returns an
error, or serialising fails in `status`, the action returns that error after a successful `New`
without any `Close` call. -/
theorem close_only_on_success {W : Type} (lib : Lib W) (c : Context) (w : W) :
    (∀ ctl col, Event.setColor ctl col none ∈ (Command.Color.Action lib c w).trace →
      ClosedOnceAtEnd (Command.Color.Action lib c w).trace ctl) ∧
    (∀ ctl col e, Event.setColor ctl col (some e) ∈ (Command.Color.Action lib c w).trace →
      (Command.Color.Action lib c w).outcome = .returned (some e) ∧
      LeftOpen (Command.Color.Action lib c w).trace ctl) ∧
    (∀ ctl s, Event.setState ctl s none ∈ (Command.State.Action lib c w).trace →
      ClosedOnceAtEnd (Command.State.Action lib c w).trace ctl) ∧
    (∀ ctl s e, Event.setState ctl s (some e) ∈ (Command.State.Action lib c w).trace →
      (Command.State.Action lib c w).outcome = .returned (some e) ∧
      LeftOpen (Command.State.Action lib c w).trace ctl) ∧
    (∀ ctl ds, Event.getDeviceState ctl (.ok ds) ∈ (Command.Status.Action lib c w).trace →
      (c.boolFlag "json" = true → ∃ res, lib.Marshal ds = .ok res) →
      ClosedOnceAtEnd (Command.Status.Action lib c w).trace ctl) ∧
    (∀ ctl e, Event.getDeviceState ctl (.err e) ∈ (Command.Status.Action lib c w).trace →
      (Command.Status.Action lib c w).outcome = .returned (some e) ∧
      LeftOpen (Command.Status.Action lib c w).trace ctl) ∧
    (∀ ctl ds e, Event.getDeviceState ctl (.ok ds) ∈ (Command.Status.Action lib c w).trace →
      c.boolFlag "json" = true → lib.Marshal ds = .err e →
      (Command.Status.Action lib c w).outcome = .returned (some e) ∧
      LeftOpen (Command.Status.Action lib c w).trace ctl) := by
  refine ⟨?_, ?_, ?_, ?_, ?_, ?_, ?_⟩
  · generalize hr : Command.Color.Action lib c w = r
    simp only [Command.Color.Action] at hr
    repeat' split at hr
    all_goals (subst hr; simp_all [ClosedOnceAtEnd, Event.isClose, Println2])
  · generalize hr : Command.Color.Action lib c w = r
    simp only [Command.Color.Action] at hr
    repeat' split at hr
    all_goals (subst hr; simp_all [LeftOpen, Event.isClose, Println2])
  · generalize hr : Command.State.Action lib c w = r
    simp only [Command.State.Action] at hr
    repeat' split at hr
    all_goals (subst hr; simp_all [ClosedOnceAtEnd, Event.isClose, Println2])
  · generalize hr : Command.State.Action lib c w = r
    simp only [Command.State.Action] at hr
    repeat' split at hr
    all_goals (subst hr; simp_all [LeftOpen, Event.isClose, Println2])
  · generalize hr : Command.Status.Action lib c w = r
    simp only [Command.Status.Action, closeAndReturn, statusLines] at hr
    repeat' split at hr
    all_goals (subst hr; simp_all [ClosedOnceAtEnd, Event.isClose, Println2, Println1])
  · generalize hr : Command.Status.Action lib c w = r
    simp only [Command.Status.Action, closeAndReturn, statusLines] at hr
    repeat' split at hr
    all_goals (subst hr; simp_all [LeftOpen, Event.isClose, Println2, Println1])
  · generalize hr : Command.Status.Action lib c w = r
    simp only [Command.Status.Action, closeAndReturn, statusLines] at hr
    repeat' split at hr
    all_goals (subst hr; simp_all [LeftOpen, Event.isClose, Println2, Println1])

/-- C9 at concrete inputs: a fully successful `color` run ends with its one `Close`; a `color`
run whose `SetColor` fails, and a `status --json` run whose serialisation fails, return the error
and leave the opened session unclosed. -/
theorem close_only_on_success_witness :
    ClosedOnceAtEnd (Command.Color.Action Script.allOk.lib
      (Script.ctx ["192.168.1.10", "255", "0", "128", "0"] false) 0).trace 1 ∧
    ((Command.Color.Action Script.opFails.lib
        (Script.ctx ["192.168.1.10", "255", "0", "128", "0"] false) 0).outcome
      = .returned (some "write failed") ∧
     LeftOpen (Command.Color.Action Script.opFails.lib
      (Script.ctx ["192.168.1.10", "255", "0", "128", "0"] false) 0).trace 1) ∧
    ((Command.Status.Action Script.marshalFails.lib (Script.ctx ["192.168.1.10"] true) 0).outcome
      = .returned (some "marshal failed") ∧
     LeftOpen (Command.Status.Action Script.marshalFails.lib
      (Script.ctx ["192.168.1.10"] true) 0).trace 1) :=
  ⟨(close_only_on_success Script.allOk.lib
      (Script.ctx ["192.168.1.10", "255", "0", "128", "0"] false) 0).1
      1 { R := 255, G := 0, B := 128, W := 0 } (by decide),
   (close_only_on_success Script.opFails.lib
      (Script.ctx ["192.168.1.10", "255", "0", "128", "0"] false) 0).2.1
      1 { R := 255, G := 0, B := 128, W := 0 } "write failed" (by decide),
   (close_only_on_success Script.marshalFails.lib (Script.ctx ["192.168.1.10"] true) 0).2.2.2.2.2.2
      1 Script.snapshot "marshal failed" (by decide) (by decide) (by decide)⟩

/-! ## Narrowing of the integer flags -/

/-- The low eight bits of an integer are the integer itself exactly on 0..255. -/
theorem toUint8_eq_iff (x : Int) : (toUint8 x : Int) = x ↔ 0 ≤ x ∧ x ≤ 255 := by
  unfold toUint8
  omega

/-- The low sixteen bits of an integer are the integer itself exactly on 0..65535. -/
theorem toUint16_eq_iff (x : Int) : (toUint16 x : Int) = x ↔ 0 ≤ x ∧ x ≤ 65535 := by
  unfold toUint16
  omega

/-- Weaving the spinner into a trace adds spinner writes only. -/
theorem mem_weave (sched : Nat → Nat) (x : Event) (hx : x.isSpinner = false) (t : List Event) :
    ∀ k, x ∈ weave sched k t ↔ x ∈ t := by
  have hne : x ≠ Event.spinner := by
    intro h
    rw [h] at hx
    simp [Event.isSpinner] at hx
  induction t with
  | nil =>
    intro k
    simp only [weave, List.mem_replicate, List.not_mem_nil, iff_false, not_and]
    exact fun _ => hne
  | cons a t ih =>
    intro k
    simp only [weave, List.mem_append, List.mem_replicate, List.mem_cons, ih]
    constructor
    · rintro (⟨_, h⟩ | h)
      · exact absurd h hne
      · exact h
    · exact fun h => Or.inr h

/-- A `Discover` call is in the woven trace exactly when the main goroutine made it. -/
theorem mem_weave_discover (sched : Nat → Nat) (opts : DiscoverOptions)
    (res : Res (List Device)) (t : List Event) (k : Nat) :
    Event.discover opts res ∈ weave sched k t ↔ Event.discover opts res ∈ t :=
  mem_weave sched (Event.discover opts res) rfl t k

/-- C10: the integer flags are narrowed by wrap-around, not validated.  Every `Discover` call
carries the timeout flag modulo 256 and every `New` call the port flag modulo 65536; the value
passed is the flag value itself exactly when the flag lies in 0..255 (timeout) or 0..65535
(port); a timeout flag of 256 is passed as 0. -/
theorem flags_narrowed_by_wraparound {W : Type} (lib : Lib W) (c : Context) (sched : Nat → Nat)
    (w : W) :
    (∃ res, Event.discover
        { BroadcastAddr := c.stringFlag "broadcastaddr", Timeout := toUint8 (c.intFlag "timeout") }
        res ∈ (Command.Discover.Action lib c sched w).trace) ∧
    (∀ opts res, Event.discover opts res ∈ (Command.Discover.Action lib c sched w).trace →
      (opts.Timeout : Int) = c.intFlag "timeout" % 256) ∧
    (∀ ip port res,
      Event.new ip port res ∈ (Command.Color.Action lib c w).trace ∨
      Event.new ip port res ∈ (Command.State.Action lib c w).trace ∨
      Event.new ip port res ∈ (Command.Status.Action lib c w).trace →
      (port : Int) = c.intFlag "port" % 65536) ∧
    (∀ x : Int, ((toUint8 x : Int) = x ↔ 0 ≤ x ∧ x ≤ 255) ∧
      ((toUint16 x : Int) = x ↔ 0 ≤ x ∧ x ≤ 65535)) ∧
    toUint8 256 = 0 := by
  have h8 : ∀ x : Int, (toUint8 x : Int) = x % 256 := by
    intro x; unfold toUint8; omega
  have h16 : ∀ x : Int, (toUint16 x : Int) = x % 65536 := by
    intro x; unfold toUint16; omega
  refine ⟨?_, ?_, ?_, fun x => ⟨toUint8_eq_iff x, toUint16_eq_iff x⟩, by decide⟩
  · simp only [Command.Discover.Action, List.mem_cons, mem_weave_discover, false_or]
    simp only [discoverMain]
    repeat' split
    all_goals simp
  · intro opts res
    simp only [Command.Discover.Action, List.mem_cons, mem_weave_discover, false_or]
    simp only [discoverMain]
    repeat' split
    all_goals
      (simp [tableHeader, Println0, Println1, deviceRow]
       try (intro ho _; rw [ho]; exact h8 _))
  · intro ip port res
    rintro (h | h | h)
    · generalize hr : Command.Color.Action lib c w = r at h
      simp only [Command.Color.Action] at hr
      repeat' split at hr
      all_goals (subst hr; simp [Println2] at h)
      all_goals (rw [h.2.1]; exact h16 _)
    · generalize hr : Command.State.Action lib c w = r at h
      simp only [Command.State.Action] at hr
      repeat' split at hr
      all_goals (subst hr; simp [Println2] at h)
      all_goals (rw [h.2.1]; exact h16 _)
    · generalize hr : Command.Status.Action lib c w = r at h
      simp only [Command.Status.Action, closeAndReturn, statusLines] at hr
      repeat' split at hr
      all_goals (subst hr; simp [Println2, Println1] at h)
      all_goals (rw [h.2.1]; exact h16 _)

/-- C10 at concrete inputs: with a timeout flag of 256 `Discover` is called with timeout 0,
and with a port flag of 70000 `New` is called with port 4464. -/
theorem flags_narrowed_by_wraparound_witness :
    (Event.discover { BroadcastAddr := "255.255.255.255", Timeout := 0 } (.ok []) ∈
        (Command.Discover.Action Script.noDevices.lib Script.wideCtx Script.sched 0).trace ∧
      (((0 : Nat) : Int) = Script.wideCtx.intFlag "timeout" % 256)) ∧
    (Event.new [0, 0, 0, 0, 0, 0, 0, 0, 0, 0, 255, 255, 192, 168, 1, 10] 4464 (.ok 1) ∈
        (Command.Status.Action Script.allOk.lib Script.wideCtx 0).trace ∧
      (((4464 : Nat) : Int) = Script.wideCtx.intFlag "port" % 65536)) :=
  ⟨⟨by decide,
    (flags_narrowed_by_wraparound Script.noDevices.lib Script.wideCtx Script.sched 0).2.1
      { BroadcastAddr := "255.255.255.255", Timeout := 0 } (.ok []) (by decide)⟩,
   ⟨by decide,
    (flags_narrowed_by_wraparound Script.allOk.lib Script.wideCtx Script.sched 0).2.2.1
      [0, 0, 0, 0, 0, 0, 0, 0, 0, 0, 255, 255, 192, 168, 1, 10] 4464 (.ok 1)
      (Or.inr (Or.inr (by decide)))⟩⟩

/-! ## The `discover` command -/

/-- Dropping the spinner writes from a woven trace gives back the spinner-free events of the
main goroutine. -/
theorem filter_weave (sched : Nat → Nat) (t : List Event) :
    ∀ k, (weave sched k t).filter (fun x => !x.isSpinner) = t.filter (fun x => !x.isSpinner) := by
  have hrep : ∀ n, (List.replicate n Event.spinner).filter (fun x => !x.isSpinner) = [] := by
    intro n
    induction n with
    | zero => rfl
    | succ n ih => simp [List.replicate_succ, Event.isSpinner]
  induction t with
  | nil =>
    intro k
    simp only [weave, hrep, List.filter_nil]
  | cons a t ih =>
    intro k
    simp only [weave, List.filter_append, hrep, List.nil_append, List.filter_cons, ih]

/-- The device rows are writes of the main goroutine. -/
theorem filter_rows {W : Type} (lib : Lib W) (L : List Device) :
    (L.map (deviceRow lib)).filter (fun x => !x.isSpinner) = L.map (deviceRow lib) := by
  induction L with
  | nil => rfl
  | cons d L ih => simp [deviceRow, Event.isSpinner]

/-- C6: in the `discover` command, whenever `Discover` returns a device list `L` without error,
the action returns nil; apart from the spinner dots, it writes `Discovering`, and then, if `L` is
empty, a newline and `No devices discovered.` and nothing else, otherwise the table header
followed by exactly one row per record of `L`, in the order of `L`, each made of that record's
IP, ID and Model. -/
theorem discover_output {W : Type} (lib : Lib W) (c : Context) (sched : Nat → Nat) (w : W)
    (opts : DiscoverOptions) (L : List Device)
    (h : Event.discover opts (.ok L) ∈ (Command.Discover.Action lib c sched w).trace) :
    (Command.Discover.Action lib c sched w).outcome = .returned none ∧
    (L = [] →
      (Command.Discover.Action lib c sched w).trace.filter (fun x => !x.isSpinner)
        = [ .print "Discovering", .discover opts (.ok []),
            .print "\n", .print "No devices discovered.\n" ]) ∧
    (L ≠ [] →
      (Command.Discover.Action lib c sched w).trace.filter (fun x => !x.isSpinner)
        = [ .print "Discovering", .discover opts (.ok L),
            .print "\n", .print "Discovered the following devices:\n", .print "\n",
            .print "Address    \t| ID         \t| Model\n",
            .print "---------------------------------------\n" ]
          ++ L.map (fun d => Event.print
              (lib.IPString d.IP ++ "\t| " ++ d.ID ++ "\t| " ++ d.Model ++ "\n"))) := by
  simp only [Command.Discover.Action, List.mem_cons, mem_weave_discover] at h
  simp only [Command.Discover.Action, List.filter_cons, filter_weave]
  generalize hr : discoverMain lib c w = r at h
  simp only [discoverMain] at hr
  repeat' split at hr
  · subst hr; simp at h
  · subst hr
    rename_i devs w1 hd hlen
    have hL : devs = L := by
      simp [tableHeader, Println0, Println1, deviceRow] at h
      exact h.2.symm
    subst hL
    have hne : devs ≠ [] := by
      intro h0; rw [h0] at hlen; simp at hlen
    have hopts : opts = { BroadcastAddr := c.stringFlag "broadcastaddr",
                          Timeout := toUint8 (c.intFlag "timeout") } := by
      simp [tableHeader, Println0, Println1, deviceRow] at h
      exact h
    subst hopts
    refine ⟨rfl, fun h0 => absurd h0 hne, fun _ => ?_⟩
    simp only [List.filter_append, filter_rows]
    simp [tableHeader, Println0, Println1, Event.isSpinner]
    exact fun _ _ => rfl
  · subst hr
    rename_i devs w1 hd hlen
    have hL : devs = L := by
      simp [Println0, Println1] at h
      exact h.2.symm
    subst hL
    have hnil : devs = [] := by
      cases devs with
      | nil => rfl
      | cons a t => simp at hlen
    subst hnil
    have hopts : opts = { BroadcastAddr := c.stringFlag "broadcastaddr",
                          Timeout := toUint8 (c.intFlag "timeout") } := by
      simp [Println0, Println1] at h
      exact h
    subst hopts
    refine ⟨rfl, fun _ => ?_, fun h0 => absurd rfl h0⟩
    simp [Println0, Println1, Event.isSpinner]

/-- C6 at concrete inputs: with two devices found the action writes the header and the two
rows in order and returns nil; with none found it writes the no-devices message and returns
nil. -/
theorem discover_output_witness :
    ((Command.Discover.Action Script.allOk.lib (Script.ctx [] false) Script.sched 0).outcome
        = .returned none ∧
      (Command.Discover.Action Script.allOk.lib (Script.ctx [] false) Script.sched 0).trace.filter
          (fun x => !x.isSpinner)
        = [ .print "Discovering",
            .discover { BroadcastAddr := "255.255.255.255", Timeout := 1 }
              (.ok [{ IP := [192, 168, 1, 20], ID := "AABBCC", Model := "AK001" },
                    { IP := [192, 168, 1, 21], ID := "DDEEFF", Model := "AK001" }]),
            .print "\n", .print "Discovered the following devices:\n", .print "\n",
            .print "Address    \t| ID         \t| Model\n",
            .print "---------------------------------------\n",
            .print "192.168.1.20\t| AABBCC\t| AK001\n",
            .print "192.168.1.21\t| DDEEFF\t| AK001\n" ]) ∧
    ((Command.Discover.Action Script.noDevices.lib (Script.ctx [] false) Script.sched 0).outcome
        = .returned none ∧
      (Command.Discover.Action Script.noDevices.lib (Script.ctx [] false) Script.sched 0).trace.filter
          (fun x => !x.isSpinner)
        = [ .print "Discovering",
            .discover { BroadcastAddr := "255.255.255.255", Timeout := 1 } (.ok []),
            .print "\n", .print "No devices discovered.\n" ]) :=
  ⟨⟨(discover_output Script.allOk.lib (Script.ctx [] false) Script.sched 0
      { BroadcastAddr := "255.255.255.255", Timeout := 1 }
      [{ IP := [192, 168, 1, 20], ID := "AABBCC", Model := "AK001" },
       { IP := [192, 168, 1, 21], ID := "DDEEFF", Model := "AK001" }] (by decide)).1,
    (discover_output Script.allOk.lib (Script.ctx [] false) Script.sched 0
      { BroadcastAddr := "255.255.255.255", Timeout := 1 }
      [{ IP := [192, 168, 1, 20], ID := "AABBCC", Model := "AK001" },
       { IP := [192, 168, 1, 21], ID := "DDEEFF", Model := "AK001" }] (by decide)).2.2
      (by decide)⟩,
   ⟨(discover_output Script.noDevices.lib (Script.ctx [] false) Script.sched 0
      { BroadcastAddr := "255.255.255.255", Timeout := 1 } [] (by decide)).1,
    (discover_output Script.noDevices.lib (Script.ctx [] false) Script.sched 0
      { BroadcastAddr := "255.255.255.255", Timeout := 1 } [] (by decide)).2.1 rfl⟩⟩

end appcli
